import Mathlib

/-!
Verification of the booking-ba-scraper repository against its
natural-language specification.

The Python sources are shallowly embedded as executable Lean definitions:

* `src/config/settings.py`      → `Settings`, `settings`
* `src/models/hotel.py`         → `Hotel`
* `src/utils/input_validators.py` → `strptimeYMD`, `validate_date`, `validate_dates`
* `src/scraping/scraper.py`     → `cleanPrice` (`_clean_price`), `buildURL`
  (`_build_url`), `parseHotelCard` (`_parse_hotel_card`), `scrapeLoop`
  (`scrape`), `initBrowser` (`_init_browser`), `mkScraper` (`__init__`)
* `src/writers/csv_writer.py`   → `CSVWriterState`, `addHotel`, `writeBatch`,
  `flushWriter`, `writeFromList`

Modelling conventions: the browser/page supplied by playwright is an
environment `Env : ℕ → PageStep` giving, for each iteration of the scraping
loop, the results of the library calls the loop makes; the wall clock read by
`datetime.now()` is an explicit `today` parameter; Python `float` values
produced by `float(...)` on the digit strings handled here are modelled as
exact rationals (ℚ); the filesystem written by the CSV writer is the ordered
list of (filename, rows) pairs carried in the writer state.  The regex class
`\d`, `int()` and `float()` digits are the Unicode decimal digits
(category Nd, tabulated in `decDigitZeros`); `str.strip()` — and the
pydantic `str_strip_whitespace = True` applied to every `Hotel` field —
strips the `str.isspace()` codepoints tabulated in `pySpaceCodes`.
-/

/-! ## src/config/settings.py -/

/-- Configuration constants, from `Settings` in `src/config/settings.py`. -/
structure Settings where
  TIMEOUT : ℕ
  MAX_RETRIES : ℕ
  BACKOFF_FACTOR : ℕ
  BATCH_SIZE : ℕ

/-- The `settings` singleton (`src/config/settings.py`, lines 13-22). -/
def settings : Settings :=
  { TIMEOUT := 20, MAX_RETRIES := 5, BACKOFF_FACTOR := 4, BATCH_SIZE := 20 }

/-! ## src/models/hotel.py -/

/-- The `Hotel` pydantic model (`src/models/hotel.py`): one extracted
listing record; every field is stored as a string, defaulting to "N/A".
Its `Config` sets `str_strip_whitespace = True`, so construction stores
every field with surrounding whitespace stripped — `parseHotelCard` below
applies `pyStripString` to each field accordingly. -/
structure Hotel where
  nombre_hotel : String := "N/A"
  ubicacion : String := "N/A"
  checkin_date : String := "N/A"
  checkout_date : String := "N/A"
  precio_inicial : String := "N/A"
  precio_impuesto : String := "N/A"
  precio_final : String := "N/A"
  calificacion : String := "N/A"
  puntaje : String := "N/A"
  cantidad_reviews : String := "N/A"
  link_detalle : String := "N/A"
deriving Repr, DecidableEq

/-! ## `BookingScraper._clean_price` (src/scraping/scraper.py, lines 272-288)

`_clean_price` takes loosely formatted price text, finds the first maximal
run matching the regex `\d+[\d,.]*`, strips commas from it and feeds the
result to the Python `float` builtin.  The numeric value is modelled as an exact
rational. -/

/-- Block starts (zero digits) of every Unicode decimal-digit range
(category Nd): each block is the ten consecutive codepoints
`zero .. zero+9` whose decimal values are `0 .. 9`.  This is the exact set
matched by `\d` in CPython str regexes (`SRE_UNI_IS_DIGIT` is
`Py_UNICODE_ISDECIMAL`) and accepted digit-wise by `int()` and `float()`. -/
def decDigitZeros : List ℕ := [48, 1632, 1776, 1984, 2406, 2534, 2662, 2790, 2918, 3046, 3174, 3302, 3430, 3558, 3664, 3792, 3872, 4160, 4240, 6112, 6160, 6470, 6608, 6784, 6800, 6992, 7088, 7232, 7248, 42528, 43216, 43264, 43472, 43504, 43600, 44016, 65296, 66720, 68912, 69734, 69872, 69942, 70096, 70384, 70736, 70864, 71248, 71360, 71472, 71904, 72016, 72784, 73040, 73120, 92768, 92864, 93008, 120782, 120792, 120802, 120812, 120822, 123200, 123632, 125264, 130032]

/-- Unicode decimal-digit test with value: `some v` when the character is
a decimal digit of value `v`, else `none`. -/
def decDigit? (c : Char) : Option ℕ :=
  (decDigitZeros.find? (fun z => z ≤ c.toNat && c.toNat ≤ z + 9)).map (fun z => c.toNat - z)

/-- The regex class `\d` (a Unicode decimal digit). -/
def isDecDigit (c : Char) : Bool := (decDigit? c).isSome

/-- Numeric value of a decimal digit character (0 for non-digits; only
applied to digits). -/
def decVal (c : Char) : ℕ := (decDigit? c).getD 0

/-- The character class `[\d,.]` of the tail of the price regex. -/
def isNumCh (c : Char) : Bool := isDecDigit c || c == ',' || c == '.'

/-- Python `"N/A" in s`: substring containment of `"N/A"`. -/
def containsNA : List Char → Bool
  | [] => false
  | c :: cs => List.isPrefixOf ['N', '/', 'A'] (c :: cs) || containsNA cs

/-- Python `s.replace("\xa0", " ")`: the no-break space (U+00A0) becomes an
ordinary space. -/
def replaceNBSP (cs : List Char) : List Char :=
  cs.map (fun c => if c = Char.ofNat 160 then ' ' else c)

/-- The codepoints for which Python `str.isspace()` holds: exactly what
`str.strip()` (and pydantic `str_strip_whitespace`) removes from the ends. -/
def pySpaceCodes : List ℕ := [9, 10, 11, 12, 13, 28, 29, 30, 31, 32, 133, 160, 5760, 8192, 8193, 8194, 8195, 8196, 8197, 8198, 8199, 8200, 8201, 8202, 8232, 8233, 8239, 8287, 12288]

/-- Python whitespace test, per `str.isspace()`. -/
def isPySpace (c : Char) : Bool := pySpaceCodes.contains c.toNat

/-- Python `s.strip()`: drop whitespace from both ends. -/
def stripChars (cs : List Char) : List Char :=
  ((cs.dropWhile isPySpace).reverse.dropWhile isPySpace).reverse

/-- `str.strip()` on a string: what pydantic `str_strip_whitespace = True`
(hotel.py `Config`) applies to every `str` field value when a `Hotel` is
constructed. -/
def pyStripString (s : String) : String := ⟨stripChars s.data⟩

/-- `re.search(r"(\d+[\d,.]*)", s)`: the first maximal run that starts at a
decimal digit and continues through digits, commas and dots; `none` when
the string has no decimal digit. -/
def firstNumRun : List Char → Option (List Char)
  | [] => none
  | c :: cs => if isDecDigit c then some (c :: cs.takeWhile isNumCh) else firstNumRun cs

/-- Python `num_str.replace(",", "")`. -/
def removeCommas (cs : List Char) : List Char := cs.filter (fun c => c ≠ ',')

/-- Natural number denoted by a decimal-digit string (most significant
first), as `int()` reads it digit value by digit value. -/
def natOfDigits (cs : List Char) : ℕ := cs.foldl (fun a c => 10 * a + decVal c) 0

/-- Python `float(s)` restricted to the strings reachable here (decimal
digits and dots): it succeeds exactly when there is at most one dot and at
least one digit, every digit is a Unicode decimal digit, and the value is
read exactly (as a rational). `float("1.2.3")` raises `ValueError`,
modelled by `none`. -/
def ratOfFloatStr (cs : List Char) : Option ℚ :=
  let ip := cs.takeWhile isDecDigit
  let rest := cs.dropWhile isDecDigit
  match rest with
  | [] => if ip.isEmpty then none else some (natOfDigits ip)
  | '.' :: frac =>
    if ip.isEmpty && frac.isEmpty then none
    else if frac.all isDecDigit then
      some ((natOfDigits ip : ℚ) + (natOfDigits frac : ℚ) / (10 : ℚ) ^ frac.length)
    else none
  | _ => none

/-- `BookingScraper._clean_price` (scraper.py lines 272-288): empty or
"N/A"-containing input gives 0; otherwise search the cleaned text for the
first `\d+[\d,.]*` run, strip commas, convert; a failed conversion
(`ValueError`) gives 0. -/
def cleanPrice (s : String) : ℚ :=
  if s.data.isEmpty || containsNA s.data then 0
  else
    let t := stripChars (replaceNBSP s.data)
    match firstNumRun t with
    | none => 0
    | some run =>
      match ratOfFloatStr (removeCommas run) with
      | some q => q
      | none => 0

example : cleanPrice "$ 230,821" = 230821 := by decide
example : cleanPrice "+$ 61,426" = 61426 := by decide
example : cleanPrice "$ 1,234.56" = 123456 / 100 := by
  rw [show cleanPrice "$ 1,234.56" = (1234 : ℚ) + 56 / 10 ^ 2 from rfl]
  norm_num
example : cleanPrice "" = 0 := by decide
example : cleanPrice "N/A" = 0 := by decide
example : cleanPrice "Includes taxes" = 0 := by decide
example : cleanPrice "v1.2.3" = 0 := by decide
example : cleanPrice ⟨[Char.ofNat 1635, Char.ofNat 1636, Char.ofNat 1637]⟩ = 345 := by decide
example : cleanPrice ⟨[Char.ofNat 178]⟩ = 0 := by decide
example : pyStripString " X" = "X" := by decide

/-! ## src/utils/input_validators.py

`datetime.strptime(date_str, "%Y-%m-%d")` matches the CPython `_strptime`
regex `\d\d\d\d` for `%Y`, `1[0-2]|0[1-9]|[1-9]` for `%m` and
`3[01]|[12]\d|0[1-9]|[1-9]` for `%d`, requires the whole string to be
consumed, converts the groups with `int()`, and then builds a `datetime`,
which additionally requires the year to be at least `MINYEAR = 1` and the
day to exist in the given month.  In a str pattern `\d` matches every
Unicode decimal digit (and `int()` converts them), while explicit classes
such as `[1-9]` are ASCII.  Since the two alternations have no
backtracking overlap with the literal `-` / end-of-string that follows
them (their two-digit cases end in a digit, never `-` or end of input), a
greedy two-digit-first reading is equivalent.  A parsed date is the triple
of its fields. -/

/-- A `datetime` at midnight: the (year, month, day) triple. -/
structure PyDate where
  y : ℕ
  m : ℕ
  d : ℕ
deriving Repr, DecidableEq

/-- Field-wise comparison of `datetime` values (times here are all
midnight, so only the date fields matter). -/
def dateLtb (a b : PyDate) : Bool :=
  Nat.blt a.y b.y ||
    (Nat.beq a.y b.y && (Nat.blt a.m b.m || (Nat.beq a.m b.m && Nat.blt a.d b.d)))

/-- `datetime` `<=`, from `<` and equality of the fields. -/
def dateLeb (a b : PyDate) : Bool :=
  dateLtb a b || (Nat.beq a.y b.y && Nat.beq a.m b.m && Nat.beq a.d b.d)

/-- The `%m` regex alternative `1[0-2]|0[1-9]` (two digits; explicit
character classes in the pattern are ASCII, only `\d` is Unicode). -/
def month2 (a b : Char) : Option ℕ :=
  if a == '1' && (b == '0' || b == '1' || b == '2') then some (10 + decVal b)
  else if a == '0' && b.isDigit && b != '0' then some (decVal b)
  else none

/-- The `%m` regex alternative `[1-9]` (one digit, ASCII class). -/
def month1 (a : Char) : Option ℕ :=
  if a.isDigit && a != '0' then some (decVal a) else none

/-- The `%d` regex alternative `3[01]|[12]\d|0[1-9]` (two digits): the
second character of `[12]\d` may be any Unicode decimal digit (e.g.
`strptime` reads day `1٣` as 13 via `int()`); the other classes are
ASCII. -/
def day2 (a b : Char) : Option ℕ :=
  if a == '3' && (b == '0' || b == '1') then some (30 + decVal b)
  else if (a == '1' || a == '2') && isDecDigit b then some (10 * decVal a + decVal b)
  else if a == '0' && b.isDigit && b != '0' then some (decVal b)
  else none

/-- The `%d` regex alternative `[1-9]` (one digit, ASCII class). -/
def day1 (a : Char) : Option ℕ :=
  if a.isDigit && a != '0' then some (decVal a) else none

/-- Day-of-month field followed by end of string (strptime raises on
unconverted trailing data). -/
def parseDayEnd : List Char → Option ℕ
  | [a] => day1 a
  | [a, b] => day2 a b
  | _ => none

/-- Month field, the literal `-`, then the day field. -/
def parseMonthDay : List Char → Option (ℕ × ℕ)
  | a :: b :: rest =>
    match month2 a b with
    | some m =>
      match rest with
      | '-' :: rest2 => (parseDayEnd rest2).map (fun d => (m, d))
      | _ => none
    | none =>
      match month1 a with
      | some m => if b == '-' then (parseDayEnd rest).map (fun d => (m, d)) else none
      | none => none
  | _ => none

/-- Gregorian leap year, as `calendar.isleap` / `datetime` use it. -/
def isLeap (y : ℕ) : Bool := (y % 4 == 0 && y % 100 != 0) || y % 400 == 0

/-- Length of a month, as validated by the `datetime` constructor. -/
def daysInMonth (y m : ℕ) : ℕ :=
  if m == 2 then (if isLeap y then 29 else 28)
  else if m == 4 || m == 6 || m == 9 || m == 11 then 30
  else 31

/-- `datetime.strptime(s, "%Y-%m-%d")`: a 4-digit year (`\d\d\d\d`, any
Unicode decimal digits, converted by `int()`), `-`, month, `-`, day, end of
string, then the `datetime` constructor checks `1 <= year` and that the
day exists in the month; `none` models the `ValueError`. -/
def strptimeYMD (s : String) : Option PyDate :=
  match s.data with
  | y1 :: y2 :: y3 :: y4 :: '-' :: rest =>
    if isDecDigit y1 && isDecDigit y2 && isDecDigit y3 && isDecDigit y4 then
      let y := 1000 * decVal y1 + 100 * decVal y2 + 10 * decVal y3 + decVal y4
      match parseMonthDay rest with
      | some (m, d) =>
        if 1 ≤ y && d ≤ daysInMonth y m then some ⟨y, m, d⟩ else none
      | none => none
    else none
  | _ => none

/-- `validate_date` (input_validators.py lines 8-28): keep the string when
it parses, otherwise raise `ValueError` with the field name. -/
def validate_date (date_str field_name : String) : Except String String :=
  match strptimeYMD date_str with
  | some _ => .ok date_str
  | none => .error (field_name ++ " debe tener formato YYYY-MM-DD. Recibido: " ++ date_str)

/-- `validate_dates` (input_validators.py lines 31-58). `today` is the
value of `datetime.now()` truncated to midnight, passed explicitly. -/
def validate_dates (today : PyDate) (checkin checkout : String) :
    Except String (String × String) :=
  match validate_date checkin "checkin_date" with
  | .error e => .error e
  | .ok checkin' =>
    match validate_date checkout "checkout_date" with
    | .error e => .error e
    | .ok checkout' =>
      match strptimeYMD checkin', strptimeYMD checkout' with
      | some checkin_dt, some checkout_dt =>
        if dateLeb checkout_dt checkin_dt then
          .error "checkout_date debe ser posterior a checkin_date"
        else if dateLtb checkin_dt today then
          .error "checkin_date no puede ser una fecha pasada"
        else .ok (checkin', checkout')
      | _, _ => .error "time data does not match format"

example : strptimeYMD "2025-03-15" = some ⟨2025, 3, 15⟩ := by decide
example : strptimeYMD "2025-02-30" = none := by decide
example : strptimeYMD "2025-13-01" = none := by decide
example : strptimeYMD "2024-02-29" = some ⟨2024, 2, 29⟩ := by decide
example : strptimeYMD "2025-1-5" = some ⟨2025, 1, 5⟩ := by decide
example :
    strptimeYMD ⟨[Char.ofNat 1634, Char.ofNat 1632, Char.ofNat 1634, Char.ofNat 1637,
      '-', '0', '3', '-', '1', '5']⟩ = some ⟨2025, 3, 15⟩ := by decide
example :
    strptimeYMD ⟨['2', '0', '2', '5', '-', '0', '3', '-', '1', Char.ofNat 1635]⟩ =
      some ⟨2025, 3, 13⟩ := by decide
example : strptimeYMD "0000-01-01" = none := by decide
example : strptimeYMD "999-01-01" = none := by decide
example : strptimeYMD "2025-01-012" = none := by decide
example : validate_dates ⟨2025, 3, 1⟩ "2025-03-15" "2025-03-16" =
    .ok ("2025-03-15", "2025-03-16") := by rfl
example : (validate_dates ⟨2025, 3, 1⟩ "2025-03-16" "2025-03-15").isOk = false := by decide
example : (validate_dates ⟨2025, 3, 1⟩ "2025-02-20" "2025-03-15").isOk = false := by decide
example : (validate_dates ⟨2025, 3, 1⟩ "2025-03-15" "2025-03-15").isOk = false := by decide

/-! ## `BookingScraper.__init__` and `_build_url` (scraper.py lines 31-90) -/

/-- The search parameters stored on the scraper by `__init__`
(scraper.py lines 31-69): `max_hotels` is capped at 500. -/
structure ScrapeConfig where
  maxHotels : ℕ
  checkin_date : String
  checkout_date : String
  group_adults : ℤ
  rooms_number : ℤ
  group_children : ℤ
deriving Repr, DecidableEq

/-- `BookingScraper.__init__`: `self.max_hotels = min(max_hotels, 500)`,
the remaining parameters stored as given. -/
def mkScraper (max_hotels : ℕ) (checkin_date checkout_date : String)
    (group_adults rooms_number group_children : ℤ) : ScrapeConfig :=
  { maxHotels := min max_hotels 500
    checkin_date := checkin_date
    checkout_date := checkout_date
    group_adults := group_adults
    rooms_number := rooms_number
    group_children := group_children }

/-- Python `str.lstrip("/")`. -/
def lstripSlash (s : String) : String := ⟨s.data.dropWhile (fun c => c == '/')⟩

/-- Python `str.rstrip("/")`. -/
def rstripSlash (s : String) : String := ⟨(s.data.reverse.dropWhile (fun c => c == '/')).reverse⟩

/-- `BookingScraper._build_url` (scraper.py lines 71-90): the fixed Buenos
Aires search URL with the configured parameters interpolated (integers
render in decimal, as in a Python f-string). -/
def buildURL (cfg : ScrapeConfig) : String :=
  let base_url := "https://www.booking.com"
  let params :=
    "/searchresults.html?ss=Buenos+Aires&ssne=Buenos+Aires&ssne_untouched=Buenos+Aires&dest_id=-979186&dest_type=city&checkin=" ++
      (cfg.checkin_date ++ ("&checkout=" ++ (cfg.checkout_date ++ ("&group_adults=" ++
        (toString cfg.group_adults ++ ("&no_rooms=" ++ (toString cfg.rooms_number ++
          ("&group_children=" ++ (toString cfg.group_children ++ "&lang=en-us")))))))))
  rstripSlash base_url ++ "/" ++ lstripSlash params

/-! ## `BookingScraper._init_browser` (scraper.py lines 92-103) -/

/-- The launched playwright browser: all that matters to the spec is the
`headless` flag passed to `chromium.launch`. -/
structure Browser where
  headless : Bool
deriving Repr, DecidableEq

/-- `BookingScraper._init_browser` (scraper.py line 103): the code calls
`playwright.chromium.launch(headless=False)`. -/
def initBrowser : Browser := { headless := false }

/-! ## src/writers/csv_writer.py

The writer state; the files already written are modelled as the ordered
list of (filename, rows) pairs. -/

/-- `CSVWriter` state (csv_writer.py lines 34-47) plus the output files it
has produced, in the order they were written. -/
structure CSVWriterState where
  batch_size : ℕ
  buffer : List Hotel
  file_counter : ℕ
  total_written : ℕ
  files : List (String × List Hotel)
deriving Repr, DecidableEq

/-- A fresh writer: `batch_size` comes from `settings.BATCH_SIZE`. -/
def initWriter : CSVWriterState :=
  { batch_size := settings.BATCH_SIZE
    buffer := []
    file_counter := 0
    total_written := 0
    files := [] }

/-- Python `f"{n:03d}"` for a natural number: zero-pad to width 3. -/
def fmt3 (n : ℕ) : String :=
  if n < 10 then "00" ++ toString n
  else if n < 100 then "0" ++ toString n
  else toString n

/-- `CSVWriter._get_next_filename` (csv_writer.py lines 61-70) applied to
the counter value after its increment. -/
def nextFilename (counter : ℕ) : String := "booking_hotels_" ++ fmt3 counter ++ ".csv"

/-- `CSVWriter._write_batch` (csv_writer.py lines 72-92): with a nonempty
buffer, bump the file counter, write the buffer to the next numbered file,
add its length to the running total and clear it. -/
def writeBatch (w : CSVWriterState) : CSVWriterState :=
  if w.buffer.isEmpty then w
  else
    { w with
      file_counter := w.file_counter + 1
      files := w.files ++ [(nextFilename (w.file_counter + 1), w.buffer)]
      total_written := w.total_written + w.buffer.length
      buffer := [] }

/-- `CSVWriter.add_hotel` (csv_writer.py lines 94-104): append to the
buffer; once the buffer reaches `batch_size`, write it out. -/
def addHotel (w : CSVWriterState) (h : Hotel) : CSVWriterState :=
  let w1 := { w with buffer := w.buffer ++ [h] }
  if w.batch_size ≤ w1.buffer.length then writeBatch w1 else w1

/-- `CSVWriter.flush` (csv_writer.py lines 124-129). -/
def flushWriter (w : CSVWriterState) : CSVWriterState :=
  if w.buffer.isEmpty then w else writeBatch w

/-- `CSVWriter.write_from_generator` (csv_writer.py lines 106-122): consume
the whole (finite) iterator through `add_hotel`, flush the remainder, and
return `self._total_written`. -/
def writeFromList (w : CSVWriterState) (hotels : List Hotel) : CSVWriterState × ℕ :=
  let w' := flushWriter (hotels.foldl addHotel w)
  (w', w'.total_written)

example : nextFilename 1 = "booking_hotels_001.csv" := by decide
example : nextFilename 23 = "booking_hotels_023.csv" := by decide
example : nextFilename 123 = "booking_hotels_123.csv" := by decide
set_option maxRecDepth 8000 in
example :
    ((writeFromList initWriter (List.replicate 45 {})).1.files.map
      (fun f => f.2.length)) = [20, 20, 5] := by decide
set_option maxRecDepth 8000 in
example : (writeFromList initWriter (List.replicate 45 {})).2 = 45 := by decide
set_option maxRecDepth 8000 in
example :
    ((writeFromList initWriter (List.replicate 45 {})).1.files.map Prod.fst) =
      ["booking_hotels_001.csv", "booking_hotels_002.csv", "booking_hotels_003.csv"] := by
  decide

/-! ## `BookingScraper._parse_hotel_card` and `scrape` (scraper.py 216-270, 385-451)

The browser page is an environment: for each iteration of the `while` loop
in `scrape`, it supplies the outcome of every playwright call made during
that iteration (the unscraped cards returned by `_get_hotel_cards`, the
results of `_scroll_page`, `_click_load_more`, and `_wait_for_new_content`).
This over-approximates what a real page can do, and the code cannot observe
anything else about it. -/

/-- One hotel card as seen by `_parse_hotel_card`: the strings its
`_extract_text_safe` / `_extract_href_safe` calls return (those helpers
swallow their own exceptions and return "N/A" by default), plus whether the
`card.evaluate` marking call throws (caught by the outer `except`, which
returns `None` before touching the processed set). -/
structure Card where
  nombre : String := "N/A"
  link : String := "N/A"
  evalFails : Bool := false
  ubicacion : String := "N/A"
  raw_precio_inicial : String := "N/A"
  raw_fees : String := "N/A"
  calificacion : String := "N/A"
  puntaje : String := "N/A"
  reviews : String := "N/A"
deriving Repr, DecidableEq

/-- Rendering of a Python float into the string fields of `Hotel`
(`str(x)` in `_parse_hotel_card`).  The exact decimal rendering of a double
is irrelevant to every claim below (none inspects these fields), so the
exact rational is rendered with its own `toString`. -/
def floatStr (q : ℚ) : String := toString q

/-- `BookingScraper._parse_hotel_card` (scraper.py lines 216-270): mark the
card, drop it when its detail link is already in `self._processed_hotels`
(returning `None`), otherwise record the link and build the `Hotel`.
The deduplication set keys on the raw href, while pydantic validation
(`str_strip_whitespace`) stores every field of the constructed `Hotel`
whitespace-stripped.  Returns the optional hotel together with the updated
processed set (modelled as a list with membership semantics). -/
def parseHotelCard (checkin checkout : String) (processed : List String) (c : Card) :
    Option Hotel × List String :=
  if c.evalFails then (none, processed)
  else if c.link ∈ processed then (none, processed)
  else
    let precio_inicial_q := cleanPrice c.raw_precio_inicial
    let fees_q := cleanPrice c.raw_fees
    (some
      { nombre_hotel := pyStripString c.nombre
        ubicacion := pyStripString c.ubicacion
        checkin_date := pyStripString checkin
        checkout_date := pyStripString checkout
        precio_inicial := pyStripString (floatStr precio_inicial_q)
        precio_impuesto := pyStripString (floatStr fees_q)
        precio_final := pyStripString (floatStr (precio_inicial_q + fees_q))
        calificacion := pyStripString c.calificacion
        puntaje := pyStripString c.puntaje
        cantidad_reviews := pyStripString c.reviews
        link_detalle := pyStripString c.link },
      c.link :: processed)

/-- What the page does during one iteration of the `scrape` loop: the
unscraped cards `_get_hotel_cards` returns, and the boolean results of
`_scroll_page`, `_click_load_more` and `_wait_for_new_content`. -/
structure PageStep where
  cards : List Card
  scrolled : Bool
  loadedMore : Bool
  newContent : Bool

/-- A behaviour of the page across the whole run: iteration number ↦ what
the page does in that iteration. -/
def Env : Type := ℕ → PageStep

/-- `BookingScraper._apply_backoff` (scraper.py lines 363-372): the delay
slept before the next retry, in seconds. -/
def applyBackoff (attempt : ℕ) : ℕ := settings.BACKOFF_FACTOR ^ attempt

/-- The mutable state of one run of `scrape`: the local variables
`scraped_count` and `no_new_content_attempts`, the instance set
`self._processed_hotels`, the iteration number, plus the observable output
(hotels yielded so far, backoff delays slept so far). -/
structure ScrapeState where
  scrapedCount : ℕ
  processed : List String
  attempts : ℕ
  step : ℕ
  yielded : List Hotel
  backoffs : List ℕ

/-- The starting state of `scrape` (scraper.py lines 395-396; the processed
set starts empty in `__init__`). -/
def initScrapeState : ScrapeState :=
  { scrapedCount := 0, processed := [], attempts := 0, step := 0, yielded := [], backoffs := [] }

/-- The `for card in cards` body (scraper.py lines 412-422): stop once the
cap is reached; parse each card; yield and count each parsed hotel. -/
def processCards (cfg : ScrapeConfig) : ScrapeState → List Card → ScrapeState
  | s, [] => s
  | s, c :: cs =>
    if cfg.maxHotels ≤ s.scrapedCount then s
    else
      match parseHotelCard cfg.checkin_date cfg.checkout_date s.processed c with
      | (none, p) => processCards cfg { s with processed := p } cs
      | (some hot, p) =>
        processCards cfg
          { s with
            processed := p
            scrapedCount := s.scrapedCount + 1
            yielded := s.yielded ++ [hot] } cs

/-- The `while scraped_count < self.max_hotels` loop of `scrape`
(scraper.py lines 402-451), with explicit fuel.  The returned boolean is
`true` when the loop exited (cap reached, no cards, or retries exhausted)
and `false` when the fuel ran out first; `settings.MAX_RETRIES` bounds the
consecutive no-new-content attempts, and each failed attempt sleeps
`applyBackoff` seconds (recorded in `backoffs`). -/
def scrapeLoop (env : Env) (cfg : ScrapeConfig) : ℕ → ScrapeState → ScrapeState × Bool
  | 0, s => (s, false)
  | fuel + 1, s =>
    if cfg.maxHotels ≤ s.scrapedCount then (s, true)
    else
      let ps := env s.step
      if ps.cards.isEmpty then (s, true)
      else
        let s1 := processCards cfg s ps.cards
        if cfg.maxHotels ≤ s1.scrapedCount then (s1, true)
        else if (ps.scrolled || ps.loadedMore) && ps.newContent then
          scrapeLoop env cfg fuel { s1 with attempts := 0, step := s1.step + 1 }
        else
          let a := s1.attempts + 1
          if settings.MAX_RETRIES ≤ a then ({ s1 with attempts := a }, true)
          else
            scrapeLoop env cfg fuel
              { s1 with
                attempts := a
                step := s1.step + 1
                backoffs := s1.backoffs ++ [applyBackoff a] }

/-- A whole run of `scrape` from the initial state. -/
def scrapeRun (env : Env) (cfg : ScrapeConfig) (fuel : ℕ) : ScrapeState × Bool :=
  scrapeLoop env cfg fuel initScrapeState

/-- The `scrape` loop terminates on a given page behaviour when some
amount of fuel suffices for it to exit on its own. -/
def ScrapeTerminates (env : Env) (cfg : ScrapeConfig) : Prop :=
  ∃ fuel, (scrapeRun env cfg fuel).2 = true

/-- An iteration "makes progress" when the code reaches the
`scrolled or loaded_more` / `new_content` path that resets the retry
counter and continues (scraper.py lines 428-435). -/
def progressAt (ps : PageStep) : Bool := (ps.scrolled || ps.loadedMore) && ps.newContent

/-! ## Helper lemmas -/

/-- The `getLast?` value of a list is a member of the list. -/
theorem mem_of_getLast?_eq {α : Type} {l : List α} {a : α} (h : l.getLast? = some a) :
    a ∈ l := by
  cases l with
  | nil => simp at h
  | cons x xs =>
    rw [List.getLast?_eq_getLast _ (by simp)] at h
    have hm := List.getLast_mem (l := x :: xs) (by simp)
    rw [← Option.some_inj.mp h]
    exact hm

/-! ## Invariants of the CSV writer -/

/-- Invariant of a writer state reachable from `initWriter` by `add_hotel`
calls: the buffer stays strictly below the batch size, every file written
so far is exactly one full batch, the file counter counts the files, the
filenames are the consecutive numbered names, and the running total counts
exactly the records in the files. -/
def WriterInv (w : CSVWriterState) : Prop :=
  w.batch_size = settings.BATCH_SIZE ∧
  w.buffer.length < w.batch_size ∧
  (∀ f ∈ w.files, (f.2 : List Hotel).length = w.batch_size) ∧
  w.file_counter = w.files.length ∧
  w.files.map Prod.fst = (List.range' 1 w.files.length).map nextFilename ∧
  w.total_written = (w.files.map (fun f => f.2.length)).sum

theorem writerInv_init : WriterInv initWriter := by
  refine ⟨rfl, by decide, ?_, rfl, rfl, rfl⟩
  intro f hf
  simp [initWriter] at hf

theorem writerInv_addHotel (w : CSVWriterState) (h : Hotel) (hw : WriterInv w) :
    WriterInv (addHotel w h) := by
  obtain ⟨hbs, hbuf, hfiles, hctr, hnames, htot⟩ := hw
  unfold addHotel writeBatch
  by_cases hfull : w.batch_size ≤ (w.buffer ++ [h]).length
  · have hlen : (w.buffer ++ [h]).length = w.batch_size := by
      simp only [List.length_append, List.length_singleton] at hfull ⊢
      omega
    simp only [hfull, if_true]
    have hne : ¬ (w.buffer ++ [h]).isEmpty := by
      simp [List.isEmpty_iff]
    simp only [hne, if_false, Bool.false_eq_true]
    refine ⟨hbs, ?_, ?_, ?_, ?_, ?_⟩
    · simp only [List.length_nil]
      rw [hbs]
      decide
    · intro f hf
      simp only [List.mem_append, List.mem_singleton] at hf
      rcases hf with hf | hf
      · exact hfiles f hf
      · subst hf; exact hlen
    · simp [hctr]
    · simp only [List.map_append, List.length_append, List.map_cons, List.map_nil,
        List.length_singleton, hnames, hctr]
      rw [List.range'_concat]
      simp [Nat.add_comm]
    · simp [htot]
  · simp only [hfull, if_false]
    refine ⟨hbs, ?_, hfiles, hctr, hnames, htot⟩
    simp only [List.length_append, List.length_singleton] at hfull ⊢
    omega

theorem writerInv_foldl (hs : List Hotel) (w : CSVWriterState) (hw : WriterInv w) :
    WriterInv (hs.foldl addHotel w) := by
  induction hs generalizing w with
  | nil => exact hw
  | cons h t ih => exact ih _ (writerInv_addHotel w h hw)

/-- `add_hotel` preserves batch size and advances total+buffer by one. -/
theorem addHotel_count (w : CSVWriterState) (h : Hotel) :
    (addHotel w h).total_written + (addHotel w h).buffer.length =
      w.total_written + w.buffer.length + 1 := by
  unfold addHotel writeBatch
  by_cases hfull : w.batch_size ≤ (w.buffer ++ [h]).length
  · have hne : ¬ (w.buffer ++ [h]).isEmpty := by simp [List.isEmpty_iff]
    simp only [hfull, if_true, hne, if_false, Bool.false_eq_true]
    simp only [List.length_append, List.length_singleton, List.length_nil] at hfull ⊢
    omega
  · simp only [hfull, if_false]
    simp only [List.length_append, List.length_singleton] at hfull ⊢
    omega

theorem foldl_count (hs : List Hotel) (w : CSVWriterState) :
    (hs.foldl addHotel w).total_written + (hs.foldl addHotel w).buffer.length =
      w.total_written + w.buffer.length + hs.length := by
  induction hs generalizing w with
  | nil => simp
  | cons h t ih =>
    simp only [List.foldl_cons, List.length_cons]
    rw [ih (addHotel w h), addHotel_count]
    omega

theorem flush_count (w : CSVWriterState) :
    (flushWriter w).total_written = w.total_written + w.buffer.length := by
  unfold flushWriter writeBatch
  by_cases hemp : w.buffer.isEmpty
  · simp only [hemp, if_true]
    have : w.buffer.length = 0 := by
      simpa [List.isEmpty_iff] using hemp
    omega
  · simp only [hemp, if_false, Bool.false_eq_true]

theorem flush_sum (w : CSVWriterState)
    (htot : w.total_written = (w.files.map (fun f => f.2.length)).sum) :
    (flushWriter w).total_written =
      ((flushWriter w).files.map (fun f => f.2.length)).sum := by
  unfold flushWriter writeBatch
  by_cases hemp : w.buffer.isEmpty
  · simp only [hemp, if_true]
    exact htot
  · simp only [hemp, if_false, Bool.false_eq_true]
    simp [htot]

/-- C6: in any run of `add_hotel` calls followed by the final flush, every
output file except possibly the last holds exactly `batch_size` records,
the last holds between 1 and `batch_size` records, and the files are named
`booking_hotels_001.csv`, `booking_hotels_002.csv`, ... consecutively in
the order they were written. -/
theorem csv_batches_full_except_last_and_numbered (hotels : List Hotel) :
    (∀ f ∈ (writeFromList initWriter hotels).1.files.dropLast,
        (f.2 : List Hotel).length = settings.BATCH_SIZE) ∧
    (∀ f, (writeFromList initWriter hotels).1.files.getLast? = some f →
        1 ≤ (f.2 : List Hotel).length ∧ (f.2 : List Hotel).length ≤ settings.BATCH_SIZE) ∧
    (writeFromList initWriter hotels).1.files.map Prod.fst =
      (List.range' 1 (writeFromList initWriter hotels).1.files.length).map nextFilename := by
  have hInv := writerInv_foldl hotels initWriter writerInv_init
  obtain ⟨hbs, hbuf, hfiles, hctr, hnames, htot⟩ := hInv
  set w0 := hotels.foldl addHotel initWriter with hw0
  have hrun : (writeFromList initWriter hotels).1 = flushWriter w0 := rfl
  rw [hrun]
  unfold flushWriter writeBatch
  by_cases hemp : w0.buffer.isEmpty
  · simp only [hemp, if_true]
    refine ⟨?_, ?_, ?_⟩
    · intro f hf
      have hf' : f ∈ w0.files := (List.dropLast_sublist w0.files).subset hf
      rw [← hbs]
      exact hfiles f hf'
    · intro f hf
      have hf' : f ∈ w0.files := mem_of_getLast?_eq hf
      have hlenf := hfiles f hf'
      rw [hbs] at hlenf
      exact ⟨by rw [hlenf]; decide, by rw [hlenf]⟩
    · exact hnames
  · simp only [hemp, if_false, Bool.false_eq_true]
    have hne : w0.buffer ≠ [] := by simpa [List.isEmpty_iff] using hemp
    refine ⟨?_, ?_, ?_⟩
    · intro f hf
      simp only [List.dropLast_concat] at hf
      rw [← hbs]
      exact hfiles f hf
    · intro f hf
      simp only [List.getLast?_concat] at hf
      rw [← Option.some_inj.mp hf]
      refine ⟨?_, ?_⟩
      · show 1 ≤ w0.buffer.length
        have : 0 < w0.buffer.length := List.length_pos.mpr hne
        omega
      · show w0.buffer.length ≤ settings.BATCH_SIZE
        rw [← hbs]
        omega
    · simp only [List.map_append, List.length_append, List.map_cons, List.map_nil,
        List.length_singleton, hnames, hctr]
      rw [List.range'_concat]
      simp [Nat.add_comm]

/-- C7: `write_from_generator` consumes the whole iterator, flushes the
remainder, and returns a total equal both to the number of hotels consumed
and to the sum of the record counts of all written batches. -/
theorem write_from_generator_total (hotels : List Hotel) :
    (writeFromList initWriter hotels).2 = hotels.length ∧
    (writeFromList initWriter hotels).2 =
      (((writeFromList initWriter hotels).1.files.map (fun f => f.2.length)).sum) := by
  have hInv := writerInv_foldl hotels initWriter writerInv_init
  obtain ⟨hbs, hbuf, hfiles, hctr, hnames, htot⟩ := hInv
  have hcount := foldl_count hotels initWriter
  have h1 : (writeFromList initWriter hotels).2 =
      (flushWriter (hotels.foldl addHotel initWriter)).total_written := rfl
  constructor
  · rw [h1, flush_count]
    simpa [initWriter] using hcount
  · rw [h1]
    exact flush_sum _ htot

set_option maxRecDepth 8000 in
/-- Witness for C6 at a concrete input: 25 hotels through a fresh writer
produce a full first batch of 20, a last batch of 5, and the two expected
filenames. -/
theorem csv_batches_witness :
    (writeFromList initWriter (List.replicate 25 ({} : Hotel))).1.files.map
        (fun f => ((f.1 : String), (f.2 : List Hotel).length)) =
      [("booking_hotels_001.csv", 20), ("booking_hotels_002.csv", 5)] := by
  have h := csv_batches_full_except_last_and_numbered (List.replicate 25 ({} : Hotel))
  decide

/-! ## URL construction -/

set_option maxRecDepth 40000 in
theorem lstrip_key (t : String) :
    lstripSlash
        ("/searchresults.html?ss=Buenos+Aires&ssne=Buenos+Aires&ssne_untouched=Buenos+Aires&dest_id=-979186&dest_type=city&checkin=" ++ t) =
      "searchresults.html?ss=Buenos+Aires&ssne=Buenos+Aires&ssne_untouched=Buenos+Aires&dest_id=-979186&dest_type=city&checkin=" ++ t := by
  apply String.ext
  simp only [lstripSlash, String.data_append]
  simp [List.dropWhile_cons]

set_option maxRecDepth 40000 in
/-- C8: `_build_url` deterministically produces the fixed Buenos Aires
search URL with the configured check-in and check-out dates, adults, rooms
and children substituted into the `checkin`, `checkout`, `group_adults`,
`no_rooms` and `group_children` query parameters; in particular equal
parameters give equal URLs. -/
theorem build_url_template (max_hotels : ℕ) (checkin checkout : String)
    (adults rooms children : ℤ) :
    buildURL (mkScraper max_hotels checkin checkout adults rooms children) =
      "https://www.booking.com/searchresults.html?ss=Buenos+Aires&ssne=Buenos+Aires&ssne_untouched=Buenos+Aires&dest_id=-979186&dest_type=city&checkin=" ++
        checkin ++ "&checkout=" ++ checkout ++ "&group_adults=" ++
        toString adults ++ "&no_rooms=" ++ toString rooms ++
        "&group_children=" ++ toString children ++ "&lang=en-us" := by
  show rstripSlash "https://www.booking.com" ++ "/" ++ lstripSlash _ = _
  rw [show rstripSlash "https://www.booking.com" = "https://www.booking.com" by decide]
  rw [lstrip_key]
  apply String.ext
  simp [String.data_append, List.append_assoc, mkScraper]

/-- C9: the `headless` flag of the browser actually launched by
`_init_browser` is `False`, although the spec (and the docstring and debug
log line of the method itself) promise a headless browser. -/
theorem init_browser_not_headless : initBrowser.headless = false := rfl

/-! ## Invariants of the scraping loop -/

/-- The `Hotel` record that `_parse_hotel_card` builds for a card whose
link is fresh (every field pydantic-stripped). -/
def hotelOfCard (ci co : String) (c : Card) : Hotel :=
  { nombre_hotel := pyStripString c.nombre
    ubicacion := pyStripString c.ubicacion
    checkin_date := pyStripString ci
    checkout_date := pyStripString co
    precio_inicial := pyStripString (floatStr (cleanPrice c.raw_precio_inicial))
    precio_impuesto := pyStripString (floatStr (cleanPrice c.raw_fees))
    precio_final := pyStripString (floatStr (cleanPrice c.raw_precio_inicial + cleanPrice c.raw_fees))
    calificacion := pyStripString c.calificacion
    puntaje := pyStripString c.puntaje
    cantidad_reviews := pyStripString c.reviews
    link_detalle := pyStripString c.link }

/-- Case analysis of `_parse_hotel_card`: it either drops the card and
leaves the processed set alone, or the card link was fresh, gets recorded,
and the returned hotel carries it as `link_detalle`. -/
theorem parseHotelCard_spec (ci co : String) (proc : List String) (c : Card) :
    parseHotelCard ci co proc c = (none, proc) ∨
      (c.link ∉ proc ∧
        ∃ h, parseHotelCard ci co proc c = (some h, c.link :: proc) ∧
          h.link_detalle = pyStripString c.link) := by
  by_cases h1 : c.evalFails
  · left
    simp [parseHotelCard, h1]
  · by_cases h2 : c.link ∈ proc
    · left
      simp [parseHotelCard, h1, h2]
    · right
      refine ⟨h2, hotelOfCard ci co c, ?_, rfl⟩
      simp [parseHotelCard, hotelOfCard, h1, h2]

/-- Invariant carried through a run of `scrape`: the yielded records
correspond, in order, to a pairwise-distinct list of raw hrefs, all
recorded in the processed set, each stored as its pydantic-stripped form in
`link_detalle`; and the scraped count both counts the yielded hotels and
respects the cap. -/
def StateInv (cfg : ScrapeConfig) (s : ScrapeState) : Prop :=
  (∃ raws : List String, raws.Nodup ∧ (∀ r ∈ raws, r ∈ s.processed) ∧
    s.yielded.map Hotel.link_detalle = raws.map pyStripString) ∧
  s.scrapedCount = s.yielded.length ∧
  s.scrapedCount ≤ cfg.maxHotels

theorem stateInv_init (cfg : ScrapeConfig) : StateInv cfg initScrapeState :=
  ⟨⟨[], List.nodup_nil, by intro r hr; simp at hr, rfl⟩, rfl, Nat.zero_le _⟩

theorem processCards_inv (cfg : ScrapeConfig) (cards : List Card) (s : ScrapeState)
    (hP : StateInv cfg s) : StateInv cfg (processCards cfg s cards) := by
  induction cards generalizing s with
  | nil => exact hP
  | cons c cs ih =>
    rw [processCards]
    split
    · exact hP
    · rename_i hcnt
      rcases parseHotelCard_spec cfg.checkin_date cfg.checkout_date s.processed c with
        heq | ⟨hnotin, h, heq, hlink⟩
      · rw [heq]
        exact ih s hP
      · rw [heq]
        obtain ⟨⟨raws, hnd, hsub, hmap⟩, hcount, hcap⟩ := hP
        refine ih _ ⟨⟨raws ++ [c.link], ?_, ?_, ?_⟩, ?_, ?_⟩
        · rw [List.nodup_append]
          refine ⟨hnd, List.nodup_singleton _, ?_⟩
          intro x hx
          simp only [List.mem_singleton]
          intro hxe
          exact hnotin (hxe ▸ hsub x hx)
        · intro r hr
          rcases List.mem_append.mp hr with hm | hm
          · exact List.mem_cons_of_mem _ (hsub r hm)
          · rw [List.mem_singleton.mp hm]
            exact List.mem_cons_self _ _
        · show (s.yielded ++ [h]).map Hotel.link_detalle = (raws ++ [c.link]).map pyStripString
          rw [List.map_append, List.map_append, hmap]
          simp [hlink]
        · show s.scrapedCount + 1 = (s.yielded ++ [h]).length
          simp [hcount]
        · show s.scrapedCount + 1 ≤ cfg.maxHotels
          omega

theorem scrapeLoop_inv (env : Env) (cfg : ScrapeConfig) :
    ∀ (fuel : ℕ) (s : ScrapeState), StateInv cfg s →
      StateInv cfg (scrapeLoop env cfg fuel s).1 := by
  intro fuel
  induction fuel with
  | zero => intro s hs; exact hs
  | succ n ih =>
    intro s hs
    rw [scrapeLoop]
    dsimp only
    split
    · exact hs
    · split
      · exact hs
      · split
        · exact processCards_inv cfg _ s hs
        · split
          · exact ih _ (processCards_inv cfg _ s hs)
          · split
            · exact processCards_inv cfg _ s hs
            · exact ih _ (processCards_inv cfg _ s hs)

/-- Two cards whose detail hrefs differ only in a leading space. -/
def wsCardSpace : Card := { link := " X" }

/-- The same href without the space. -/
def wsCardBare : Card := { link := "X" }

/-- A page showing both whitespace variants of the href at once. -/
def envWS : Env := fun _ =>
  { cards := [wsCardSpace, wsCardBare], scrolled := false, loadedMore := false,
    newContent := false }

/-- A scraper asked for two hotels on that page. -/
def cfgWS : ScrapeConfig := mkScraper 2 "2026-03-01" "2026-03-05" 2 1 0

example :
    ((scrapeRun envWS cfgWS 1).1.yielded).map Hotel.link_detalle = ["X", "X"] := by decide

/-- C2: for every `max_hotels` argument and every page behaviour, `scrape`
yields at most `min max_hotels 500` hotels: the constructor stores
`min(max_hotels, 500)` and the loop stops yielding at that cap. -/
theorem scrape_yield_count_le_cap (max_hotels : ℕ) (checkin checkout : String)
    (adults rooms children : ℤ) (env : Env) (fuel : ℕ) :
    (scrapeLoop env (mkScraper max_hotels checkin checkout adults rooms children) fuel
        initScrapeState).1.yielded.length ≤ min max_hotels 500 := by
  set cfg := mkScraper max_hotels checkin checkout adults rooms children with hcfg
  have h := scrapeLoop_inv env cfg fuel initScrapeState (stateInv_init cfg)
  obtain ⟨-, hcount, hcap⟩ := h
  rw [← hcount]
  exact hcap

/-! ## Termination analysis of the scraping loop -/

/-- `processCards` never touches the retry counter or the iteration
number. -/
theorem processCards_step_attempts (cfg : ScrapeConfig) (cards : List Card)
    (s : ScrapeState) :
    (processCards cfg s cards).step = s.step ∧
      (processCards cfg s cards).attempts = s.attempts := by
  induction cards generalizing s with
  | nil => exact ⟨rfl, rfl⟩
  | cons c cs ih =>
    rw [processCards]
    split
    · exact ⟨rfl, rfl⟩
    · rcases parseHotelCard_spec cfg.checkin_date cfg.checkout_date s.processed c with
        heq | ⟨-, h, heq, -⟩
      · rw [heq]
        exact ih _
      · rw [heq]
        exact ih _

/-- The card an adversarial page shows over and over: same detail link
each time. -/
def dupCard : Card := { link := "D" }

/-- An adversarial page behaviour: every iteration shows two freshly
rendered cards carrying the same already-seen link, the scroll succeeds,
and new content does arrive (the page keeps appending duplicate cards), so
the retry counter is reset every time. -/
def envDup : Env := fun _ =>
  { cards := [dupCard, dupCard], scrolled := true, loadedMore := false, newContent := true }

/-- A scraper asked for two hotels on that page. -/
def cfgDup : ScrapeConfig := mkScraper 2 "2026-03-01" "2026-03-05" 2 1 0

/-- Processing any batch of `dupCard`s leaves the state unchanged once the
link "D" has been recorded. -/
theorem processCards_dup (s : ScrapeState) (h2 : s.processed = ["D"]) :
    ∀ cs : List Card, (∀ c ∈ cs, c = dupCard) → processCards cfgDup s cs = s := by
  intro cs
  induction cs with
  | nil => intro _; rfl
  | cons c cs ih =>
    intro hall
    rw [processCards]
    split
    · rfl
    · have hc : c = dupCard := hall c (List.mem_cons_self c cs)
      have hp : parseHotelCard cfgDup.checkin_date cfgDup.checkout_date s.processed c =
          (none, s.processed) := by
        subst hc
        rw [h2]
        decide
      rw [hp]
      exact ih (fun c' hc' => hall c' (List.mem_cons_of_mem c hc'))

/-- After the first iteration the run is stuck: the count stays at 1 (the
cap is 2), the processed set stays `["D"]`, and every iteration resets the
retry counter, so no exit condition is ever reached. -/
theorem scrapeLoop_envDup_stuck :
    ∀ (fuel : ℕ) (s : ScrapeState), s.scrapedCount = 1 → s.processed = ["D"] →
      (scrapeLoop envDup cfgDup fuel s).2 = false := by
  intro fuel
  induction fuel with
  | zero => intro s _ _; rfl
  | succ n ih =>
    intro s h1 h2
    have hcards : ∀ c ∈ (envDup s.step).cards, c = dupCard := by
      intro c hc
      simp only [envDup, List.mem_cons, List.not_mem_nil, or_false] at hc
      rcases hc with hc | hc <;> exact hc
    rw [scrapeLoop]
    dsimp only
    rw [processCards_dup s h2 (envDup s.step).cards hcards]
    split
    · rename_i hc
      rw [h1] at hc
      exact absurd hc (by decide)
    · split
      · rename_i hc
        simp [envDup] at hc
      · split
        · exact ih _ h1 h2
        · rename_i hc
          simp [envDup] at hc

/-- The state after the first iteration of the run on `envDup`. -/
def stuckState : ScrapeState :=
  { scrapedCount := 1
    processed := ["D"]
    attempts := 0
    step := 1
    yielded := [hotelOfCard cfgDup.checkin_date cfgDup.checkout_date dupCard]
    backoffs := [] }

/-- C3 counterexample: the claim quantifies over every behaviour of the
page; on the adversarial behaviour `envDup` (cap not yet reached, fresh
duplicate cards and new content every iteration) the `scrape` loop never
exits: no fuel bound suffices. -/
theorem scrape_loop_nontermination_counterexample :
    ¬ ScrapeTerminates envDup cfgDup := by
  intro hterm
  obtain ⟨fuel, hfuel⟩ := hterm
  cases fuel with
  | zero => exact absurd hfuel (by decide)
  | succ n =>
    have hstep : scrapeRun envDup cfgDup (n + 1) = scrapeLoop envDup cfgDup n stuckState := rfl
    rw [hstep] at hfuel
    rw [scrapeLoop_envDup_stuck n stuckState rfl rfl] at hfuel
    exact Bool.false_ne_true hfuel

/-- Fuel measure: once the page never again makes progress after step `N`,
each loop iteration strictly decreases this measure, so the loop exits
before it runs out. -/
theorem scrapeLoop_halts (env : Env) (cfg : ScrapeConfig) (N : ℕ)
    (hstall : ∀ n, N ≤ n → progressAt (env n) = false) :
    ∀ (fuel : ℕ) (s : ScrapeState),
      (N - s.step) * 6 + (settings.MAX_RETRIES - s.attempts) < fuel →
      (scrapeLoop env cfg fuel s).2 = true := by
  intro fuel
  induction fuel with
  | zero => intro s hm; exact absurd hm (Nat.not_lt_zero _)
  | succ n ih =>
    intro s hm
    rw [scrapeLoop]
    dsimp only
    obtain ⟨hstep, hatt⟩ := processCards_step_attempts cfg (env s.step).cards s
    split
    · rfl
    · split
      · rfl
      · split
        · rfl
        · split
          · rename_i hc4
            have hlt : s.step < N := by
              by_contra hge
              push_neg at hge
              have hq := hstall s.step hge
              rw [show (((env s.step).scrolled || (env s.step).loadedMore) &&
                (env s.step).newContent) = progressAt (env s.step) from rfl] at hc4
              rw [hq] at hc4
              exact Bool.false_ne_true hc4
            apply ih
            show (N - ((processCards cfg s (env s.step).cards).step + 1)) * 6 +
              (settings.MAX_RETRIES - 0) < n
            rw [hstep]
            rw [show settings.MAX_RETRIES = 5 from rfl] at hm ⊢
            omega
          · split
            · rfl
            · rename_i hc6
              rw [hatt] at hc6
              rw [show settings.MAX_RETRIES = 5 from rfl] at hc6
              push_neg at hc6
              apply ih
              show (N - ((processCards cfg s (env s.step).cards).step + 1)) * 6 +
                (settings.MAX_RETRIES -
                  ((processCards cfg s (env s.step).cards).attempts + 1)) < n
              rw [hstep, hatt]
              rw [show settings.MAX_RETRIES = 5 from rfl] at hm ⊢
              omega

/-- C3 (amended): the pagination loop terminates whenever the page stops
making progress from some iteration `N` on (never again reports new
content after a scroll or click); it then exits within `6*N + 6`
iterations, through the cap, an empty card list, or `MAX_RETRIES` (5)
consecutive no-new-content attempts, sleeping `BACKOFF_FACTOR**attempt`
(recorded by `applyBackoff`) between failed attempts.  Without that
proviso the loop need not terminate (see the counterexample). -/
theorem scrape_terminates_of_eventual_stall (env : Env) (cfg : ScrapeConfig) (N : ℕ)
    (hstall : ∀ n, N ≤ n → progressAt (env n) = false) :
    (scrapeRun env cfg (6 * N + 6)).2 = true := by
  apply scrapeLoop_halts env cfg N hstall
  show (N - 0) * 6 + (settings.MAX_RETRIES - 0) < 6 * N + 6
  rw [show settings.MAX_RETRIES = 5 from rfl]
  omega

/-- A page that never makes progress at all. -/
def stallEnv : Env := fun _ =>
  { cards := [dupCard], scrolled := false, loadedMore := false, newContent := false }

/-- Witness for the amended C3: on a page that never reports progress
(`N = 0`), the run exits within 6 iterations. -/
theorem scrape_terminates_of_eventual_stall_witness :
    (∀ n, 0 ≤ n → progressAt (stallEnv n) = false) ∧
      (scrapeRun stallEnv cfgDup (6 * 0 + 6)).2 = true :=
  ⟨fun _ _ => rfl, scrape_terminates_of_eventual_stall stallEnv cfgDup 0 (fun _ _ => rfl)⟩

/-! ## Correctness of `validate_dates` -/

/-- Trichotomy of the field-wise `datetime` order: `checkout <= checkin`
fails exactly when `checkin < checkout`. -/
theorem dateLeb_eq_false_iff (a b : PyDate) : dateLeb b a = false ↔ dateLtb a b = true := by
  simp only [dateLeb, dateLtb, Bool.or_eq_false_iff, Bool.or_eq_true, Bool.and_eq_false_iff,
    Bool.and_eq_true, Bool.eq_false_iff, ne_eq, Nat.blt_eq, Nat.beq_eq]
  omega

/-- C4: `validate_dates` returns `(checkin, checkout)` unchanged exactly
when both strings parse as `%Y-%m-%d` dates, checkout is strictly after
checkin, and checkin is not before `today` (the midnight-truncated
`datetime.now()`, passed explicitly); in every other case it raises
`ValueError` (the result is not `ok`). -/
theorem validate_dates_ok_iff (today : PyDate) (checkin checkout : String) :
    (validate_dates today checkin checkout = Except.ok (checkin, checkout) ↔
      (∃ a b, strptimeYMD checkin = some a ∧ strptimeYMD checkout = some b ∧
        dateLtb a b = true ∧ dateLtb a today = false)) ∧
    ((validate_dates today checkin checkout).isOk = true ↔
      (∃ a b, strptimeYMD checkin = some a ∧ strptimeYMD checkout = some b ∧
        dateLtb a b = true ∧ dateLtb a today = false)) := by
  cases hci : strptimeYMD checkin with
  | none =>
    constructor <;> simp [validate_dates, validate_date, Except.isOk, Except.toBool, hci]
  | some a =>
    cases hco : strptimeYMD checkout with
    | none =>
      constructor <;> simp [validate_dates, validate_date, Except.isOk, Except.toBool, hci, hco]
    | some b =>
      by_cases hle : dateLeb b a = true
      · have hnlt : dateLtb a b = false := by
          rcases hbl : dateLtb a b with _ | _
          · rfl
          · exfalso
            have := (dateLeb_eq_false_iff a b).mpr hbl
            rw [this] at hle
            exact Bool.false_ne_true hle
        constructor <;> simp [validate_dates, validate_date, Except.isOk, Except.toBool, hci, hco, hle, hnlt]
      · have hle' : dateLeb b a = false := by
          rcases h : dateLeb b a with _ | _
          · rfl
          · exact absurd h hle
        have hlt : dateLtb a b = true := (dateLeb_eq_false_iff a b).mp hle'
        by_cases htd : dateLtb a today = true
        · constructor <;> simp [validate_dates, validate_date, Except.isOk, Except.toBool, hci, hco, hle', htd]
        · have htd' : dateLtb a today = false := by
            rcases h : dateLtb a today with _ | _
            · rfl
            · exact absurd h htd
          constructor <;> simp [validate_dates, validate_date, Except.isOk, Except.toBool, hci, hco, hle', hlt, htd']

/-- Witness for C4 at concrete dates: a valid pair is returned unchanged,
and the parse facts behind it hold. -/
theorem validate_dates_ok_iff_witness :
    validate_dates ⟨2026, 3, 1⟩ "2026-03-10" "2026-03-12" =
      Except.ok ("2026-03-10", "2026-03-12") :=
  (validate_dates_ok_iff ⟨2026, 3, 1⟩ "2026-03-10" "2026-03-12").1.mpr
    ⟨⟨2026, 3, 10⟩, ⟨2026, 3, 12⟩, by decide, by decide, by decide, by decide⟩

/-! ## Correctness of `_clean_price` -/

/-- Characters surviving `stripChars` come from the original list. -/
theorem mem_of_mem_stripChars {c : Char} {l : List Char} (h : c ∈ stripChars l) : c ∈ l := by
  unfold stripChars at h
  rw [List.mem_reverse] at h
  have h1 := (List.dropWhile_sublist (l := (l.dropWhile isPySpace).reverse) (p := isPySpace)).subset h
  rw [List.mem_reverse] at h1
  exact (List.dropWhile_sublist (l := l) (p := isPySpace)).subset h1

/-- `replaceNBSP` neither creates nor destroys decimal digits. -/
theorem no_digit_replaceNBSP {l : List Char} (h : ∀ c ∈ l, isDecDigit c = false) :
    ∀ c ∈ replaceNBSP l, isDecDigit c = false := by
  intro c hc
  rcases List.mem_map.mp hc with ⟨a, ha, hfa⟩
  by_cases hnb : a = Char.ofNat 160
  · rw [← hfa, hnb]
    decide
  · rw [← hfa]
    simp only [hnb, if_false]
    exact h a ha

/-- The price regex finds nothing in text without decimal digits. -/
theorem firstNumRun_eq_none {l : List Char} (h : ∀ c ∈ l, isDecDigit c = false) :
    firstNumRun l = none := by
  induction l with
  | nil => rfl
  | cons c cs ih =>
    rw [firstNumRun]
    rw [if_neg (by rw [h c (List.mem_cons_self c cs)]; exact Bool.false_ne_true)]
    exact ih (fun c' hc' => h c' (List.mem_cons_of_mem c hc'))

/-- The search skips leading characters that are not decimal digits. -/
theorem firstNumRun_append {pre l : List Char} (h : ∀ c ∈ pre, isDecDigit c = false) :
    firstNumRun (pre ++ l) = firstNumRun l := by
  induction pre with
  | nil => rfl
  | cons c cs ih =>
    rw [List.cons_append, firstNumRun]
    rw [if_neg (by rw [h c (List.mem_cons_self c cs)]; exact Bool.false_ne_true)]
    exact ih (fun c' hc' => h c' (List.mem_cons_of_mem c hc'))

/-- `takeWhile` swallows a block that satisfies the predicate wholesale. -/
theorem takeWhile_append_of_all {p : Char → Bool} {l1 l2 : List Char}
    (h : ∀ c ∈ l1, p c = true) :
    (l1 ++ l2).takeWhile p = l1 ++ l2.takeWhile p := by
  induction l1 with
  | nil => rfl
  | cons c cs ih =>
    rw [List.cons_append, List.takeWhile_cons, ih (fun c' hc' => h c' (List.mem_cons_of_mem c hc'))]
    rw [h c (List.mem_cons_self c cs)]
    rfl

/-- `takeWhile` stops immediately at a non-matching head. -/
theorem takeWhile_eq_nil_of_head {p : Char → Bool} {l : List Char}
    (h : ∀ c ∈ l.take 1, p c = false) : l.takeWhile p = [] := by
  cases l with
  | nil => rfl
  | cons c cs =>
    rw [List.takeWhile_cons]
    rw [h c (by simp)]
    rfl

/-- C5: `_clean_price` maps empty input, "N/A"-containing input and input
without decimal digits (the Unicode class `\d` matches) to 0; and whenever
the cleaned text splits as a digit-free leading part, a maximal
`\d+[\d,.]*` run, and a remainder not extending the run, it returns the
numeric value of that first run with all commas removed (examples:
`'$ 230,821' ↦ 230821`, `'+$ 61,426' ↦ 61426`, `'Includes taxes' ↦ 0`). -/
theorem clean_price_spec :
    (cleanPrice "" = 0) ∧
    (∀ s : String, containsNA s.data = true → cleanPrice s = 0) ∧
    (∀ s : String, (∀ c ∈ s.data, isDecDigit c = false) → cleanPrice s = 0) ∧
    (∀ (s : String) (pre run suf : List Char) (q : ℚ),
      containsNA s.data = false →
      stripChars (replaceNBSP s.data) = pre ++ run ++ suf →
      (∀ c ∈ pre, isDecDigit c = false) →
      (∃ c0 cs0, run = c0 :: cs0 ∧ isDecDigit c0 = true) →
      (∀ c ∈ run, isNumCh c = true) →
      (∀ c ∈ suf.take 1, isNumCh c = false) →
      ratOfFloatStr (removeCommas run) = some q →
      cleanPrice s = q) ∧
    (cleanPrice "$ 230,821" = 230821 ∧ cleanPrice "+$ 61,426" = 61426 ∧
      cleanPrice "Includes taxes" = 0) := by
  refine ⟨by decide, ?_, ?_, ?_, by decide, by decide, by decide⟩
  · intro s h
    unfold cleanPrice
    rw [if_pos (by rw [h]; simp)]
  · intro s h
    by_cases hno : (s.data.isEmpty || containsNA s.data) = true
    · unfold cleanPrice
      rw [if_pos hno]
    · unfold cleanPrice
      rw [if_neg hno]
      dsimp only
      rw [firstNumRun_eq_none
        (fun c hc => no_digit_replaceNBSP h c (mem_of_mem_stripChars hc))]
  · intro s pre run suf q hna hdec hpre hrun hnum hsuf hval
    obtain ⟨c0, cs0, hr, hc0⟩ := hrun
    have hne : s.data ≠ [] := by
      intro h0
      have : stripChars (replaceNBSP s.data) = [] := by rw [h0]; rfl
      rw [hdec] at this
      have hlen := congrArg List.length this
      rw [hr] at hlen
      simp at hlen
    have hfr : firstNumRun (stripChars (replaceNBSP s.data)) = some (c0 :: cs0) := by
      rw [hdec, List.append_assoc, firstNumRun_append hpre, hr, List.cons_append, firstNumRun]
      rw [if_pos hc0]
      rw [takeWhile_append_of_all
        (fun c hc => hnum c (by rw [hr]; exact List.mem_cons_of_mem c0 hc))]
      rw [takeWhile_eq_nil_of_head hsuf, List.append_nil]
    have hval' : ratOfFloatStr (removeCommas (c0 :: cs0)) = some q := by
      rw [← hr]
      exact hval
    unfold cleanPrice
    rw [if_neg (by simp [hna, hne])]
    dsimp only
    rw [hfr]
    simp only [hval']

/-- Witness for the main case of C5 at `"$ 230,821"`: leading part `"$ "`, run
`"230,821"`, empty remainder, value 230821. -/
theorem clean_price_spec_witness : cleanPrice "$ 230,821" = 230821 := by
  apply clean_price_spec.2.2.2.1 "$ 230,821" ['$', ' '] ['2', '3', '0', ',', '8', '2', '1'] []
  · decide
  · decide
  · decide
  · exact ⟨'2', ['3', '0', ',', '8', '2', '1'], rfl, by decide⟩
  · decide
  · decide
  · decide

/-- A successfully converted price string denotes a nonnegative value. -/
theorem ratOfFloatStr_nonneg (cs : List Char) (q : ℚ)
    (h : ratOfFloatStr cs = some q) : 0 ≤ q := by
  unfold ratOfFloatStr at h
  dsimp only at h
  split at h
  · split at h
    · exact absurd h (by simp)
    · have hq := Option.some_inj.mp h
      rw [← hq]
      positivity
  · split at h
    · exact absurd h (by simp)
    · split at h
      · have hq := Option.some_inj.mp h
        rw [← hq]
        positivity
      · exact absurd h (by simp)
  · exact absurd h (by simp)

/-- C10: `_clean_price` is total (a Lean function) and never negative: the
value is either a comma-stripped digit run, hence nonnegative, or the 0.0
fallback; a malformed numeral such as the run in "v1.2.3" takes the
`ValueError` branch and yields 0. -/
theorem clean_price_total_nonneg :
    (∀ s : String, 0 ≤ cleanPrice s) ∧ cleanPrice "v1.2.3" = 0 := by
  constructor
  · intro s
    unfold cleanPrice
    split
    · exact le_refl 0
    · dsimp only
      split
      · exact le_refl 0
      · split
        · rename_i run heqr q heq
          exact ratOfFloatStr_nonneg _ q heq
        · exact le_refl 0
  · decide
